import Mathlib

/-!
# Verification of the session reconciliation and message-relay core

Shallow embedding of `src/services/socketManager.ts` from the chat widget
management backend.  The durable Prisma store (chat sessions and chat
messages) is modelled as an explicit `Store` value threaded through every
operation; the per-connection socket state (`socket.data`, joined rooms,
connectedness) is a `SocketData` value; every `socket.emit` / `io.to(room).emit`
becomes an element of an output event list.  Timestamps are drawn from a
logical clock `now` that advances on every durable write; ids are drawn from
counters, modelling Prisma id generation and `uuid()` (collision freedom of
uuid generation is represented by counter freshness).  The external n8n reply
oracle (`sendToN8n`) is a function parameter returning `Option String`
(`none` models a thrown/failed webhook call).
-/

/-- Prisma enum `chat_session_status`. -/
inductive chat_session_status where
  | ACTIVE
  | CLOSED
deriving DecidableEq, Repr

/-- Prisma enum `message_role`. -/
inductive message_role where
  | USER
  | BOT
  | SYSTEM
deriving DecidableEq, Repr

/-- Durable `chatSession` row (metadata column omitted: opaque, never read). -/
structure ChatSession where
  id : Nat
  visitor_id : Nat
  status : chat_session_status
  created_at : Nat
  last_active_at : Nat
deriving DecidableEq, Repr

/-- Durable `chatMessage` row. -/
structure ChatMessage where
  id : Nat
  session_id : Nat
  role : message_role
  content : String
  created_at : Nat
deriving DecidableEq, Repr

/-- `ChatMessageDto` from socketManager.ts (`createdAt` kept as the numeric
timestamp instead of its ISO rendering). -/
structure ChatMessageDto where
  id : Nat
  sender : message_role
  content : String
  createdAt : Nat
deriving DecidableEq, Repr

/-- The durable store plus id/uuid counters and the logical clock. -/
structure Store where
  sessions : List ChatSession
  messages : List ChatMessage
  nextSid : Nat
  nextMid : Nat
  nextVid : Nat
  now : Nat
deriving DecidableEq, Repr

/-- `socket.data` plus room membership and transport liveness. -/
structure SocketData where
  sessionId : Option Nat
  visitorId : Option Nat
  rooms : List Nat
  connected : Bool
deriving DecidableEq, Repr

/-- A freshly accepted transport connection, before any handler ran. -/
def SocketData.init : SocketData :=
  { sessionId := none, visitorId := none, rooms := [], connected := true }

/-- Payloads emitted to clients (the `ServerToClientEvents` union). -/
inductive Emitted where
  | session (sessionId : Nat) (visitorId : Nat) (status : chat_session_status)
  | history (messages : List ChatMessageDto)
  | message (m : ChatMessageDto)
  | status (s : chat_session_status)
  | error (message : String)
  | sessionClosed (sessionId : Nat) (message : String)
deriving DecidableEq, Repr

/-- An emission: `socket.emit` (to the caller) or `io.to(room).emit` (fan-out). -/
inductive OutEvent where
  | toSender (e : Emitted)
  | toRoom (room : Nat) (e : Emitted)
deriving DecidableEq, Repr

/-! ## Repository operations (the Prisma calls the core issues) -/

/-- `prisma.chatSession.findUnique({ where: { id } })`. -/
def chatSessionFindUnique (st : Store) (sid : Nat) : Option ChatSession :=
  st.sessions.find? (fun s => s.id == sid)

/-- `prisma.chatSession.update({ where: { id }, data: { status, last_active_at: new Date() } })`.
Prisma `update` throws when no row matches the `where`; `none` models that throw. -/
def chatSessionUpdate (st : Store) (sid : Nat) (newStatus : chat_session_status) :
    Option Store :=
  if st.sessions.any (fun s => s.id == sid) then
    some { st with
      sessions := st.sessions.map (fun s =>
        if s.id == sid then { s with status := newStatus, last_active_at := st.now } else s),
      now := st.now + 1 }
  else none

/-- `prisma.chatSession.findFirst({ where: { visitor_id, status: { not: CLOSED } },
orderBy: { created_at: 'desc' } })`: the matching row with the greatest
`created_at` (first such row wins ties). -/
def chatSessionFindFirstActive (st : Store) (visitorId : Nat) : Option ChatSession :=
  (st.sessions.filter
      (fun s => s.visitor_id == visitorId && s.status != chat_session_status.CLOSED)).foldl
    (fun acc s =>
      match acc with
      | none => some s
      | some best => if best.created_at < s.created_at then some s else acc)
    none

/-- `prisma.chatSession.create({ data: { visitor_id, status: ACTIVE } })`. -/
def chatSessionCreate (st : Store) (visitorId : Nat) : Store × ChatSession :=
  let s : ChatSession :=
    { id := st.nextSid, visitor_id := visitorId, status := chat_session_status.ACTIVE,
      created_at := st.now, last_active_at := st.now }
  ({ st with sessions := st.sessions ++ [s], nextSid := st.nextSid + 1, now := st.now + 1 }, s)

/-- `prisma.chatMessage.create({ data: { session_id, role, content } })`. -/
def chatMessageCreate (st : Store) (sid : Nat) (role : message_role) (content : String) :
    Store × ChatMessage :=
  let m : ChatMessage :=
    { id := st.nextMid, session_id := sid, role := role, content := content,
      created_at := st.now }
  ({ st with messages := st.messages ++ [m], nextMid := st.nextMid + 1, now := st.now + 1 }, m)

/-- Comparison used to model `orderBy: { created_at: 'asc' }` on messages. -/
def msgLe (a b : ChatMessage) : Prop := a.created_at ≤ b.created_at

instance : DecidableRel msgLe := fun a b => Nat.decLe a.created_at b.created_at

instance : IsTotal ChatMessage msgLe := ⟨fun a b => Nat.le_total a.created_at b.created_at⟩

instance : IsTrans ChatMessage msgLe := ⟨fun _ _ _ h₁ h₂ => Nat.le_trans h₁ h₂⟩

/-- `prisma.chatMessage.findMany({ where: { session_id }, orderBy: { created_at: 'asc' },
take: limit })`. -/
def chatMessageFindMany (st : Store) (sid : Nat) (limit : Nat) : List ChatMessage :=
  (List.insertionSort msgLe (st.messages.filter (fun m => m.session_id == sid))).take limit

/-! ## The socket-manager core -/

/-- `mapMessage` from socketManager.ts. -/
def mapMessage (m : ChatMessage) : ChatMessageDto :=
  { id := m.id, sender := m.role, content := m.content, createdAt := m.created_at }

/-- `getHistory(sessionId, limit)`; the source defaults `limit` to 100. -/
def getHistory (st : Store) (sessionId : Nat) (limit : Nat) : List ChatMessageDto :=
  (chatMessageFindMany st sessionId limit).map mapMessage

/-- The source's default history bound for client replay (`limit = 100`). -/
def replayHistoryLimit : Nat := 100

/-- The history bound used when building oracle context (`getHistory(sessionId, 50)`). -/
def brainHistoryLimit : Nat := 50

/-- `ensureSession(visitorId, requestedSessionId?)`. -/
def ensureSession (st : Store) (visitorId : Nat) (requestedSessionId : Option Nat) :
    Store × ChatSession :=
  let viaRequested : Option ChatSession :=
    match requestedSessionId with
    | some rid =>
      match chatSessionFindUnique st rid with
      | some s => if s.status ≠ chat_session_status.CLOSED then some s else none
      | none => none
    | none => none
  match viaRequested with
  | some s => (st, s)
  | none =>
    match chatSessionFindFirstActive st visitorId with
    | some existing => (st, existing)
    | none => chatSessionCreate st visitorId

/-- JS `String.prototype.trim` (`payload.content?.trim()`), written with
structural recursion so concrete runs reduce. -/
def trimString (s : String) : String :=
  String.mk (((s.data.dropWhile Char.isWhitespace).reverse.dropWhile
    Char.isWhitespace).reverse)

/-- The shape of the mocked `sendToN8n`: session id, new message content,
bounded history; `none` models webhook failure (a thrown promise). -/
def Oracle : Type := Nat → String → List ChatMessageDto → Option String

/-- `handleConnection(io, socket)`: visitor identity from auth, else query,
else a fresh `uuid()`; requested session id from auth, else query; resolve
the session, bind `socket.data`, join the room, emit `session`, emit
`history` when non-empty, then touch the session (`last_active_at`,
status ACTIVE).  The `catch` branch (error emit plus forced disconnect)
corresponds to the repository update failing. -/
def handleConnection (st : Store)
    (authVisitorId queryVisitorId authSessionId querySessionId : Option Nat) :
    Store × SocketData × List OutEvent :=
  let vres : Nat × Store :=
    match authVisitorId <|> queryVisitorId with
    | some v => (v, st)
    | none => (st.nextVid, { st with nextVid := st.nextVid + 1 })
  let visitorId := vres.1
  let st₁ := vres.2
  let requestedSessionId := authSessionId <|> querySessionId
  let res := ensureSession st₁ visitorId requestedSessionId
  let st₂ := res.1
  let session := res.2
  let sock : SocketData :=
    { sessionId := some session.id, visitorId := some visitorId,
      rooms := [session.id], connected := true }
  let sessionEv := OutEvent.toSender (Emitted.session session.id visitorId session.status)
  let history := getHistory st₂ session.id replayHistoryLimit
  let evs :=
    if history.isEmpty then [sessionEv]
    else [sessionEv, OutEvent.toSender (Emitted.history history)]
  match chatSessionUpdate st₂ session.id chat_session_status.ACTIVE with
  | some st₃ => (st₃, sock, evs)
  | none =>
    (st₂, { sock with connected := false },
      evs ++ [OutEvent.toSender
        (Emitted.error "Unable to start chat session. Please refresh and try again.")])

/-- The `message` handler.  Effective session id from the payload else the
attachment; missing id is an error; content is trimmed and empty content
silently dropped; the session is re-read and a missing or CLOSED session is
reported without persisting; otherwise the USER message is persisted and
fanned out, the session touched, bounded history fed to the oracle, and on
success a BOT message persisted and fanned out; oracle failure reaches the
handler's `catch`, which emits a transient error to the sender only. -/
def handleMessage (oracle : Oracle) (st : Store) (sock : SocketData)
    (payloadSessionId : Option Nat) (payloadContent : Option String) :
    Store × SocketData × List OutEvent :=
  match payloadSessionId <|> sock.sessionId with
  | none =>
    (st, sock, [OutEvent.toSender (Emitted.error "Session not established yet. Please wait.")])
  | some sessionId =>
    let content := trimString (payloadContent.getD "")
    if content = "" then (st, sock, [])
    else
      match chatSessionFindUnique st sessionId with
      | none =>
        (st, sock,
          [OutEvent.toSender (Emitted.error "Session expired. Please refresh the page."),
           OutEvent.toSender
             (Emitted.sessionClosed sessionId "Session not found. Starting new session...")])
      | some session =>
        if session.status = chat_session_status.CLOSED then
          (st, sock,
            [OutEvent.toSender
              (Emitted.sessionClosed sessionId "Session was closed. Please start a new chat.")])
        else
          let created := chatMessageCreate st sessionId message_role.USER content
          let st₁ := created.1
          let userMessage := created.2
          let userEv := OutEvent.toRoom sessionId (Emitted.message (mapMessage userMessage))
          match chatSessionUpdate st₁ sessionId chat_session_status.ACTIVE with
          | none =>
            (st₁, sock,
              [userEv,
               OutEvent.toSender
                 (Emitted.error "Unable to send message right now. Please try again.")])
          | some st₂ =>
            let historyForBrain := getHistory st₂ sessionId brainHistoryLimit
            match oracle sessionId content historyForBrain with
            | none =>
              (st₂, sock,
                [userEv,
                 OutEvent.toSender
                   (Emitted.error "Unable to send message right now. Please try again.")])
            | some aiReply =>
              let created₂ := chatMessageCreate st₂ sessionId message_role.BOT aiReply
              (created₂.1, sock,
                [userEv, OutEvent.toRoom sessionId (Emitted.message (mapMessage created₂.2))])

/-- The `heartbeat` handler: resolve the effective session id (no-op when
absent), then touch the session; a repository failure is logged and
swallowed. -/
def handleHeartbeat (st : Store) (sock : SocketData) (payloadSessionId : Option Nat) :
    Store × SocketData × List OutEvent :=
  match payloadSessionId <|> sock.sessionId with
  | none => (st, sock, [])
  | some sessionId =>
    match chatSessionUpdate st sessionId chat_session_status.ACTIVE with
    | some st₁ => (st₁, sock, [])
    | none => (st, sock, [])

/-- `handleEndSession(socket, payload)`: the unified close path shared by the
`endSession` and `end_chat` events.  No-op without an effective session id;
otherwise close the session, persist a SYSTEM closure message, notify the
caller with `sessionClosed`, leave the room and clear the binding.  The
`catch` (the update failing) emits an error and leaves the binding in place. -/
def handleEndSession (st : Store) (sock : SocketData) (payloadSessionId : Option Nat) :
    Store × SocketData × List OutEvent :=
  match payloadSessionId <|> sock.sessionId with
  | none => (st, sock, [])
  | some sessionId =>
    match chatSessionUpdate st sessionId chat_session_status.CLOSED with
    | none =>
      (st, sock,
        [OutEvent.toSender (Emitted.error "Failed to end session. Please try again.")])
    | some st₁ =>
      let created := chatMessageCreate st₁ sessionId message_role.SYSTEM
        "Chat session ended by user."
      (created.1,
        { sock with sessionId := none, rooms := sock.rooms.erase sessionId },
        [OutEvent.toSender (Emitted.sessionClosed sessionId
          "Session ended successfully. You can start a new conversation.")])

/-! ## Single-connection trace semantics -/

/-- The client-to-server event alphabet (`attach` is the transport handshake;
`endSession` and `end_chat` are the two synonymous close events). -/
inductive WireEvent where
  | attach (authVisitorId queryVisitorId authSessionId querySessionId : Option Nat)
  | message (sessionId : Option Nat) (content : Option String)
  | heartbeat (sessionId : Option Nat)
  | endSession (sessionId : Option Nat)
  | end_chat (sessionId : Option Nat)
deriving DecidableEq, Repr

/-- Durable store plus the connection's socket state. -/
structure Conn where
  store : Store
  sock : SocketData
deriving DecidableEq, Repr

/-- One dispatch of the socket.io event loop. -/
def step (oracle : Oracle) (c : Conn) : WireEvent → Conn × List OutEvent
  | WireEvent.attach av qv as qs =>
    let r := handleConnection c.store av qv as qs
    ({ store := r.1, sock := r.2.1 }, r.2.2)
  | WireEvent.message sid content =>
    let r := handleMessage oracle c.store c.sock sid content
    ({ store := r.1, sock := r.2.1 }, r.2.2)
  | WireEvent.heartbeat sid =>
    let r := handleHeartbeat c.store c.sock sid
    ({ store := r.1, sock := r.2.1 }, r.2.2)
  | WireEvent.endSession sid =>
    let r := handleEndSession c.store c.sock sid
    ({ store := r.1, sock := r.2.1 }, r.2.2)
  | WireEvent.end_chat sid =>
    let r := handleEndSession c.store c.sock sid
    ({ store := r.1, sock := r.2.1 }, r.2.2)

/-- Run a sequence of events in arrival order. -/
def run (oracle : Oracle) (c : Conn) : List WireEvent → Conn
  | [] => c
  | e :: es => run oracle (step oracle c e).1 es

/-- Well-formed store: session ids are pairwise distinct and below the id
counter (every store the core builds satisfies this). -/
def Store.WF (st : Store) : Prop :=
  (∀ s ∈ st.sessions, s.id < st.nextSid) ∧ (st.sessions.map (fun s => s.id)).Nodup

/-- The status recorded for a session id, as the core itself would re-read it. -/
def statusOf (st : Store) (sid : Nat) : Option chat_session_status :=
  (chatSessionFindUnique st sid).map (fun s => s.status)

/-! ## Basic list helpers -/

theorem find?_map_idpres (l : List ChatSession) (f : ChatSession → ChatSession)
    (hf : ∀ s, (f s).id = s.id) (sid : Nat) :
    (l.map f).find? (fun s => s.id == sid) = (l.find? (fun s => s.id == sid)).map f := by
  induction l with
  | nil => rfl
  | cons a l ih =>
    simp only [List.map_cons, List.find?_cons, hf]
    cases h : (a.id == sid) with
    | true => simp
    | false => simpa using ih

theorem find?_append_left {α : Type} (p : α → Bool) (l₁ l₂ : List α) {a : α}
    (h : l₁.find? p = some a) : (l₁ ++ l₂).find? p = some a := by
  induction l₁ with
  | nil => simp at h
  | cons b l ih =>
    by_cases hb : p b
    · rw [List.find?_cons_of_pos _ hb] at h
      rw [List.cons_append, List.find?_cons_of_pos _ hb, h]
    · rw [List.find?_cons_of_neg _ hb] at h
      rw [List.cons_append, List.find?_cons_of_neg _ hb, ih h]

theorem nodup_ids_inj {l : List ChatSession}
    (h : (l.map (fun s => s.id)).Nodup) :
    ∀ {s t : ChatSession}, s ∈ l → t ∈ l → s.id = t.id → s = t := by
  intro s t hs ht hid
  exact List.inj_on_of_nodup_map h hs ht hid

/-! ## Properties of `chatSessionFindFirstActive` -/

/-- The accumulator function behind the `orderBy created_at desc` model. -/
def pickLatest (acc : Option ChatSession) (s : ChatSession) : Option ChatSession :=
  match acc with
  | none => some s
  | some best => if best.created_at < s.created_at then some s else acc

theorem chatSessionFindFirstActive_eq_foldl (st : Store) (v : Nat) :
    chatSessionFindFirstActive st v =
      (st.sessions.filter
        (fun s => s.visitor_id == v && s.status != chat_session_status.CLOSED)).foldl
        pickLatest none := rfl

theorem foldl_pickLatest_mem :
    ∀ (l : List ChatSession) (acc : Option ChatSession) (r : ChatSession),
      l.foldl pickLatest acc = some r → r ∈ l ∨ acc = some r := by
  intro l
  induction l with
  | nil => intro acc r h; exact Or.inr h
  | cons a l ih =>
    intro acc r h
    rcases ih (pickLatest acc a) r h with hm | hacc
    · exact Or.inl (List.mem_cons_of_mem a hm)
    · cases acc with
      | none =>
        rw [show pickLatest none a = some a from rfl] at hacc
        exact Or.inl (by rw [← Option.some.inj hacc]; exact List.mem_cons_self a l)
      | some best =>
        by_cases hlt : best.created_at < a.created_at
        · rw [show pickLatest (some best) a = some a from by simp [pickLatest, hlt]] at hacc
          exact Or.inl (by rw [← Option.some.inj hacc]; exact List.mem_cons_self a l)
        · rw [show pickLatest (some best) a = some best from by simp [pickLatest, hlt]] at hacc
          exact Or.inr hacc

theorem foldl_pickLatest_ge :
    ∀ (l : List ChatSession) (acc : Option ChatSession) (r : ChatSession),
      l.foldl pickLatest acc = some r →
      (∀ t ∈ l, t.created_at ≤ r.created_at) ∧
      (∀ b, acc = some b → b.created_at ≤ r.created_at) := by
  intro l
  induction l with
  | nil =>
    intro acc r h
    exact ⟨by intro t ht; simp at ht,
      by intro b hb; rw [hb] at h; rw [Option.some.inj h]⟩
  | cons a l ih =>
    intro acc r h
    have ihs := ih (pickLatest acc a) r h
    have ha : a.created_at ≤ r.created_at := by
      cases acc with
      | none => exact ihs.2 a rfl
      | some best =>
        by_cases hlt : best.created_at < a.created_at
        · exact ihs.2 a (by simp [pickLatest, hlt])
        · exact le_trans (le_of_not_lt hlt) (ihs.2 best (by simp [pickLatest, hlt]))
    refine ⟨?_, ?_⟩
    · intro t ht
      rcases List.mem_cons.mp ht with rfl | ht
      · exact ha
      · exact ihs.1 t ht
    · intro b hb
      cases acc with
      | none => cases hb
      | some best =>
        have hbb : best = b := Option.some.inj hb
        subst hbb
        by_cases hlt : best.created_at < a.created_at
        · exact le_trans (le_of_lt hlt) ha
        · exact ihs.2 best (by simp [pickLatest, hlt])

theorem foldl_pickLatest_some :
    ∀ (l : List ChatSession) (b : ChatSession),
      ∃ r, l.foldl pickLatest (some b) = some r := by
  intro l
  induction l with
  | nil => intro b; exact ⟨b, rfl⟩
  | cons a l ih =>
    intro b
    by_cases hlt : b.created_at < a.created_at
    · rw [List.foldl_cons, show pickLatest (some b) a = some a from by simp [pickLatest, hlt]]
      exact ih a
    · rw [List.foldl_cons, show pickLatest (some b) a = some b from by simp [pickLatest, hlt]]
      exact ih b

theorem chatSessionFindFirstActive_some (st : Store) (v : Nat) (s : ChatSession)
    (h : chatSessionFindFirstActive st v = some s) :
    s ∈ st.sessions ∧ s.visitor_id = v ∧ s.status ≠ chat_session_status.CLOSED ∧
      ∀ t ∈ st.sessions, t.visitor_id = v → t.status ≠ chat_session_status.CLOSED →
        t.created_at ≤ s.created_at := by
  rw [chatSessionFindFirstActive_eq_foldl] at h
  have hmem := foldl_pickLatest_mem _ _ _ h
  rcases hmem with hmem | hbad
  · have hmem' := List.mem_filter.mp hmem
    have hprop := hmem'.2
    simp only [Bool.and_eq_true, beq_iff_eq, bne_iff_ne, ne_eq] at hprop
    refine ⟨hmem'.1, hprop.1, hprop.2, ?_⟩
    intro t ht htv hts
    exact (foldl_pickLatest_ge _ _ _ h).1 t
      (List.mem_filter.mpr ⟨ht, by simp [htv, hts]⟩)
  · cases hbad

theorem chatSessionFindFirstActive_none (st : Store) (v : Nat)
    (h : ∀ t ∈ st.sessions, t.visitor_id = v → t.status = chat_session_status.CLOSED) :
    chatSessionFindFirstActive st v = none := by
  rw [chatSessionFindFirstActive_eq_foldl]
  have : st.sessions.filter
      (fun s => s.visitor_id == v && s.status != chat_session_status.CLOSED) = [] := by
    rw [List.filter_eq_nil_iff]
    intro t ht
    by_cases htv : t.visitor_id = v
    · simp [htv, h t ht htv]
    · simp [htv]
  rw [this]
  rfl

/-! ## Effect of each repository operation on `statusOf` and well-formedness -/

theorem touch_id (sid : Nat) (ns : chat_session_status) (nowv : Nat) (s : ChatSession) :
    (if s.id == sid then { s with status := ns, last_active_at := nowv } else s).id = s.id := by
  by_cases h : (s.id == sid) = true <;> simp [h]

theorem chatSessionUpdate_eq (st : Store) (sid : Nat) (ns : chat_session_status) (st' : Store)
    (h : chatSessionUpdate st sid ns = some st') :
    st' = { st with
      sessions := st.sessions.map (fun s =>
        if s.id == sid then { s with status := ns, last_active_at := st.now } else s),
      now := st.now + 1 } ∧ st.sessions.any (fun s => s.id == sid) = true := by
  unfold chatSessionUpdate at h
  split at h
  · exact ⟨(Option.some.inj h).symm, by assumption⟩
  · cases h

theorem statusOf_update_ne {st st' : Store} {sid : Nat} {ns : chat_session_status}
    (h : chatSessionUpdate st sid ns = some st') {x : Nat} (hx : x ≠ sid) :
    statusOf st' x = statusOf st x := by
  obtain ⟨heq, -⟩ := chatSessionUpdate_eq st sid ns st' h
  subst heq
  unfold statusOf chatSessionFindUnique
  rw [find?_map_idpres _ _ (touch_id sid ns st.now) x]
  cases hfind : st.sessions.find? (fun s => s.id == x) with
  | none => rfl
  | some e =>
    have he : (e.id == x) = true := by
      have := List.find?_some hfind
      simpa using this
    have hne : (e.id == sid) = false := by
      have he' : e.id = x := by simpa using he
      simp [he', hx]
    simp [Option.map, hne]

theorem statusOf_update_self {st st' : Store} {sid : Nat} {ns : chat_session_status}
    (h : chatSessionUpdate st sid ns = some st') :
    statusOf st' sid = some ns := by
  obtain ⟨heq, hany⟩ := chatSessionUpdate_eq st sid ns st' h
  subst heq
  unfold statusOf chatSessionFindUnique
  rw [find?_map_idpres _ _ (touch_id sid ns st.now) sid]
  have hsome : (st.sessions.find? (fun s => s.id == sid)).isSome := by
    rw [List.find?_isSome]
    exact List.any_eq_true.mp hany
  cases hfind : st.sessions.find? (fun s => s.id == sid) with
  | none => rw [hfind] at hsome; cases hsome
  | some e =>
    have he : (e.id == sid) = true := by
      have := List.find?_some hfind
      simpa using this
    simp [Option.map, he]

theorem statusOf_msgCreate (st : Store) (sid : Nat) (r : message_role) (c : String) (x : Nat) :
    statusOf ((chatMessageCreate st sid r c).1) x = statusOf st x := rfl

theorem statusOf_create_of_found {st : Store} (v x : Nat) {e : ChatSession}
    (h : st.sessions.find? (fun s => s.id == x) = some e) :
    statusOf ((chatSessionCreate st v).1) x = some e.status := by
  unfold statusOf chatSessionFindUnique chatSessionCreate
  simp only
  rw [find?_append_left _ _ _ h]
  rfl

theorem chatSessionUpdate_ids {st st' : Store} {sid : Nat} {ns : chat_session_status}
    (h : chatSessionUpdate st sid ns = some st') :
    st'.sessions.map (fun s => s.id) = st.sessions.map (fun s => s.id) ∧
      st'.nextSid = st.nextSid := by
  obtain ⟨heq, -⟩ := chatSessionUpdate_eq st sid ns st' h
  subst heq
  refine ⟨?_, rfl⟩
  show (st.sessions.map _).map _ = _
  rw [List.map_map]
  exact congrArg (fun f => List.map f st.sessions)
    (funext fun s => touch_id sid ns st.now s)

theorem WF_update {st st' : Store} {sid : Nat} {ns : chat_session_status}
    (h : chatSessionUpdate st sid ns = some st') (hwf : st.WF) : st'.WF := by
  obtain ⟨hids, hsid⟩ := chatSessionUpdate_ids h
  constructor
  · intro s hs
    have hmem : s.id ∈ st'.sessions.map (fun s => s.id) := List.mem_map_of_mem _ hs
    rw [hids] at hmem
    obtain ⟨t, ht, hts⟩ := List.mem_map.mp hmem
    rw [hsid, ← hts]
    exact hwf.1 t ht
  · rw [hids]; exact hwf.2

theorem WF_create {st : Store} (v : Nat) (hwf : st.WF) : ((chatSessionCreate st v).1).WF := by
  constructor
  · intro s hs
    show s.id < st.nextSid + 1
    rcases List.mem_append.mp hs with hs | hs
    · exact Nat.lt_trans (hwf.1 s hs) (Nat.lt_succ_self _)
    · rw [List.mem_singleton.mp hs]
      exact Nat.lt_succ_self _
  · show (List.map _ (st.sessions ++ [_])).Nodup
    rw [List.map_append, List.nodup_append]
    refine ⟨hwf.2, List.nodup_singleton _, ?_⟩
    intro x hx hx'
    obtain ⟨s, hs, rfl⟩ := List.mem_map.mp hx
    have : s.id = st.nextSid := by simpa using hx'
    exact absurd (this ▸ hwf.1 s hs) (lt_irrefl _)

theorem WF_msgCreate {st : Store} (sid : Nat) (r : message_role) (c : String)
    (hwf : st.WF) : ((chatMessageCreate st sid r c).1).WF := hwf

/-! ## Characterisation of the session resolver -/

/-! ## Characterisation of the session resolver -/

/-- Every resolution result is either an existing non-CLOSED session returned
with the store untouched (steps 1 and 3), or the fresh creation of step 4. -/
theorem ensureSession_spec (st : Store) (v : Nat) (rid? : Option Nat) :
    (∃ s, ensureSession st v rid? = (st, s) ∧ s ∈ st.sessions ∧
        s.status ≠ chat_session_status.CLOSED)
    ∨ ensureSession st v rid? = chatSessionCreate st v := by
  have hstep3 : ∀ h : Unit,
      (∃ s, (match chatSessionFindFirstActive st v with
          | some existing => (st, existing)
          | none => chatSessionCreate st v) = (st, s) ∧ s ∈ st.sessions ∧
          s.status ≠ chat_session_status.CLOSED)
      ∨ (match chatSessionFindFirstActive st v with
          | some existing => (st, existing)
          | none => chatSessionCreate st v) = chatSessionCreate st v := by
    intro h
    cases hff : chatSessionFindFirstActive st v with
    | none => exact Or.inr rfl
    | some existing =>
      obtain ⟨hm, -, hst, -⟩ := chatSessionFindFirstActive_some st v existing hff
      exact Or.inl ⟨existing, rfl, hm, hst⟩
  unfold ensureSession
  cases rid? with
  | none => exact hstep3 ()
  | some rid =>
    dsimp only
    cases hfu : chatSessionFindUnique st rid with
    | none => exact hstep3 ()
    | some s =>
      dsimp only
      by_cases hcl : s.status ≠ chat_session_status.CLOSED
      · rw [if_pos hcl]
        exact Or.inl ⟨s, rfl, List.mem_of_find?_eq_some hfu, hcl⟩
      · rw [if_neg hcl]
        exact hstep3 ()

/-- A session whose durable status reads CLOSED is never the resolver's
result: the resolved id always differs from it. -/
theorem ensureSession_ne_closed (st : Store) (v : Nat) (rid? : Option Nat) (S : Nat)
    (hwf : st.WF) (hS : statusOf st S = some chat_session_status.CLOSED) :
    (ensureSession st v rid?).2.id ≠ S := by
  obtain ⟨sC, hfindC, hstC⟩ : ∃ sC, st.sessions.find? (fun s => s.id == S) = some sC ∧
      sC.status = chat_session_status.CLOSED := by
    unfold statusOf chatSessionFindUnique at hS
    cases hfind : st.sessions.find? (fun s => s.id == S) with
    | none => rw [hfind] at hS; cases hS
    | some e =>
      rw [hfind] at hS
      exact ⟨e, rfl, Option.some.inj hS⟩
  have hCid : sC.id = S := by simpa using List.find?_some hfindC
  have hCmem : sC ∈ st.sessions := List.mem_of_find?_eq_some hfindC
  rcases ensureSession_spec st v rid? with ⟨s, heq, hm, hst⟩ | heq
  · rw [heq]
    intro hid
    exact hst (by rw [nodup_ids_inj hwf.2 hm hCmem (by rw [hid, hCid])]; exact hstC)
  · rw [heq]
    show st.nextSid ≠ S
    intro hid
    exact absurd (hid ▸ hwf.1 sC hCmem) (by rw [hCid]; exact lt_irrefl S)

/-! ## Every handler except heartbeat preserves CLOSED status -/

theorem closed_handleMessage (oracle : Oracle) (st : Store) (sock : SocketData)
    (psid : Option Nat) (content : Option String) (S : Nat)
    (hS : statusOf st S = some chat_session_status.CLOSED) :
    statusOf (handleMessage oracle st sock psid content).1 S =
      some chat_session_status.CLOSED := by
  unfold handleMessage
  cases hr : psid <|> sock.sessionId with
  | none => exact hS
  | some sid =>
    dsimp only
    by_cases hc : (trimString (content.getD "") = "")
    · rw [if_pos hc]; exact hS
    · rw [if_neg hc]
      cases hf : chatSessionFindUnique st sid with
      | none => exact hS
      | some session =>
        dsimp only
        by_cases hcl : session.status = chat_session_status.CLOSED
        · rw [if_pos hcl]; exact hS
        · rw [if_neg hcl]
          have hne : S ≠ sid := by
            intro h
            rw [statusOf, h, hf] at hS
            exact hcl (Option.some.inj hS)
          cases hu : chatSessionUpdate (chatMessageCreate st sid message_role.USER
              (trimString (content.getD ""))).1 sid chat_session_status.ACTIVE with
          | none => exact hS
          | some st₂ =>
            dsimp only
            have h₂ : statusOf st₂ S = some chat_session_status.CLOSED := by
              rw [statusOf_update_ne hu hne]
              exact hS
            cases oracle sid (trimString (content.getD ""))
                (getHistory st₂ sid brainHistoryLimit) with
            | none => exact h₂
            | some aiReply => exact h₂

theorem WF_handleMessage (oracle : Oracle) (st : Store) (sock : SocketData)
    (psid : Option Nat) (content : Option String) (hwf : st.WF) :
    ((handleMessage oracle st sock psid content).1).WF := by
  unfold handleMessage
  cases hr : psid <|> sock.sessionId with
  | none => exact hwf
  | some sid =>
    dsimp only
    by_cases hc : (trimString (content.getD "") = "")
    · rw [if_pos hc]; exact hwf
    · rw [if_neg hc]
      cases hf : chatSessionFindUnique st sid with
      | none => exact hwf
      | some session =>
        dsimp only
        by_cases hcl : session.status = chat_session_status.CLOSED
        · rw [if_pos hcl]; exact hwf
        · rw [if_neg hcl]
          cases hu : chatSessionUpdate (chatMessageCreate st sid message_role.USER
              (trimString (content.getD ""))).1 sid chat_session_status.ACTIVE with
          | none => exact hwf
          | some st₂ =>
            dsimp only
            have h₂ : st₂.WF := WF_update hu hwf
            cases oracle sid (trimString (content.getD ""))
                (getHistory st₂ sid brainHistoryLimit) with
            | none => exact h₂
            | some aiReply => exact h₂

theorem closed_handleEndSession (st : Store) (sock : SocketData)
    (psid : Option Nat) (S : Nat)
    (hS : statusOf st S = some chat_session_status.CLOSED) :
    statusOf (handleEndSession st sock psid).1 S = some chat_session_status.CLOSED := by
  unfold handleEndSession
  cases hr : psid <|> sock.sessionId with
  | none => exact hS
  | some sid =>
    dsimp only
    cases hu : chatSessionUpdate st sid chat_session_status.CLOSED with
    | none => exact hS
    | some st₁ =>
      dsimp only
      show statusOf st₁ S = some chat_session_status.CLOSED
      by_cases hsid : S = sid
      · rw [hsid]; exact statusOf_update_self hu
      · rw [statusOf_update_ne hu hsid]; exact hS

theorem WF_handleEndSession (st : Store) (sock : SocketData)
    (psid : Option Nat) (hwf : st.WF) :
    ((handleEndSession st sock psid).1).WF := by
  unfold handleEndSession
  cases hr : psid <|> sock.sessionId with
  | none => exact hwf
  | some sid =>
    dsimp only
    cases hu : chatSessionUpdate st sid chat_session_status.CLOSED with
    | none => exact hwf
    | some st₁ =>
      dsimp only
      exact WF_msgCreate sid message_role.SYSTEM "Chat session ended by user."
        (WF_update hu hwf)

theorem closed_handleHeartbeat_miss (st : Store) (sock : SocketData)
    (psid : Option Nat) (S : Nat)
    (hmiss : (psid <|> sock.sessionId) ≠ some S)
    (hS : statusOf st S = some chat_session_status.CLOSED) :
    statusOf (handleHeartbeat st sock psid).1 S = some chat_session_status.CLOSED := by
  unfold handleHeartbeat
  cases hr : psid <|> sock.sessionId with
  | none => exact hS
  | some sid =>
    dsimp only
    have hne : S ≠ sid := by
      intro h
      exact hmiss (by rw [hr, h])
    cases hu : chatSessionUpdate st sid chat_session_status.ACTIVE with
    | none => exact hS
    | some st₁ =>
      dsimp only
      show statusOf st₁ S = some chat_session_status.CLOSED
      rw [statusOf_update_ne hu hne]
      exact hS

theorem WF_handleHeartbeat (st : Store) (sock : SocketData)
    (psid : Option Nat) (hwf : st.WF) :
    ((handleHeartbeat st sock psid).1).WF := by
  unfold handleHeartbeat
  cases hr : psid <|> sock.sessionId with
  | none => exact hwf
  | some sid =>
    dsimp only
    cases hu : chatSessionUpdate st sid chat_session_status.ACTIVE with
    | none => exact hwf
    | some st₁ =>
      dsimp only
      exact WF_update hu hwf

theorem statusOf_create_preserve {st : Store} (v x : Nat) {c : chat_session_status}
    (h : statusOf st x = some c) :
    statusOf ((chatSessionCreate st v).1) x = some c := by
  unfold statusOf chatSessionFindUnique at h
  cases hfind : st.sessions.find? (fun s => s.id == x) with
  | none => rw [hfind] at h; cases h
  | some e =>
    rw [hfind] at h
    rw [statusOf_create_of_found v x hfind]
    exact h

theorem closed_handleConnection (st : Store) (av qv as qs : Option Nat) (S : Nat)
    (hwf : st.WF) (hS : statusOf st S = some chat_session_status.CLOSED) :
    statusOf (handleConnection st av qv as qs).1 S = some chat_session_status.CLOSED := by
  unfold handleConnection
  cases hv : av <|> qv with
  | some v =>
    dsimp only
    have hid := ensureSession_ne_closed st v (as <|> qs) S hwf hS
    rcases ensureSession_spec st v (as <|> qs) with ⟨s, heq, hm, hst⟩ | heq <;> rw [heq] <;>
      rw [heq] at hid <;> try dsimp only
    · cases hu : chatSessionUpdate st s.id chat_session_status.ACTIVE with
      | none => exact hS
      | some st₃ =>
        dsimp only
        rw [statusOf_update_ne hu (Ne.symm hid)]
        exact hS
    · have hS₂ : statusOf ((chatSessionCreate st v).1) S =
          some chat_session_status.CLOSED := statusOf_create_preserve v S hS
      cases hu : chatSessionUpdate (chatSessionCreate st v).1 (chatSessionCreate st v).2.id
          chat_session_status.ACTIVE with
      | none => exact hS₂
      | some st₃ =>
        dsimp only
        rw [statusOf_update_ne hu (Ne.symm hid)]
        exact hS₂
  | none =>
    dsimp only
    have hwf' : Store.WF { st with nextVid := st.nextVid + 1 } := hwf
    have hS' : statusOf { st with nextVid := st.nextVid + 1 } S =
        some chat_session_status.CLOSED := hS
    have hid := ensureSession_ne_closed { st with nextVid := st.nextVid + 1 } st.nextVid
      (as <|> qs) S hwf' hS'
    rcases ensureSession_spec { st with nextVid := st.nextVid + 1 } st.nextVid (as <|> qs)
        with ⟨s, heq, hm, hst⟩ | heq <;> rw [heq] <;> rw [heq] at hid <;> try dsimp only
    · cases hu : chatSessionUpdate { st with nextVid := st.nextVid + 1 } s.id
          chat_session_status.ACTIVE with
      | none => exact hS'
      | some st₃ =>
        dsimp only
        rw [statusOf_update_ne hu (Ne.symm hid)]
        exact hS'
    · have hS₂ : statusOf ((chatSessionCreate { st with nextVid := st.nextVid + 1 }
          st.nextVid).1) S = some chat_session_status.CLOSED :=
        statusOf_create_preserve st.nextVid S hS'
      cases hu : chatSessionUpdate
          (chatSessionCreate { st with nextVid := st.nextVid + 1 } st.nextVid).1
          (chatSessionCreate { st with nextVid := st.nextVid + 1 } st.nextVid).2.id
          chat_session_status.ACTIVE with
      | none => exact hS₂
      | some st₃ =>
        dsimp only
        rw [statusOf_update_ne hu (Ne.symm hid)]
        exact hS₂

theorem WF_handleConnection (st : Store) (av qv as qs : Option Nat) (hwf : st.WF) :
    ((handleConnection st av qv as qs).1).WF := by
  unfold handleConnection
  cases hv : av <|> qv with
  | some v =>
    dsimp only
    rcases ensureSession_spec st v (as <|> qs) with ⟨s, heq, hm, hst⟩ | heq <;> rw [heq] <;>
      try dsimp only
    · cases hu : chatSessionUpdate st s.id chat_session_status.ACTIVE with
      | none => exact hwf
      | some st₃ => exact WF_update hu hwf
    · have hwf₂ : ((chatSessionCreate st v).1).WF := WF_create v hwf
      cases hu : chatSessionUpdate (chatSessionCreate st v).1 (chatSessionCreate st v).2.id
          chat_session_status.ACTIVE with
      | none => exact hwf₂
      | some st₃ => exact WF_update hu hwf₂
  | none =>
    dsimp only
    have hwf' : Store.WF { st with nextVid := st.nextVid + 1 } := hwf
    rcases ensureSession_spec { st with nextVid := st.nextVid + 1 } st.nextVid (as <|> qs)
        with ⟨s, heq, hm, hst⟩ | heq <;> rw [heq] <;> try dsimp only
    · cases hu : chatSessionUpdate { st with nextVid := st.nextVid + 1 } s.id
          chat_session_status.ACTIVE with
      | none => exact hwf'
      | some st₃ => exact WF_update hu hwf'
    · have hwf₂ : ((chatSessionCreate { st with nextVid := st.nextVid + 1 }
          st.nextVid).1).WF := WF_create st.nextVid hwf'
      cases hu : chatSessionUpdate
          (chatSessionCreate { st with nextVid := st.nextVid + 1 } st.nextVid).1
          (chatSessionCreate { st with nextVid := st.nextVid + 1 } st.nextVid).2.id
          chat_session_status.ACTIVE with
      | none => exact hwf₂
      | some st₃ => exact WF_update hu hwf₂

/-! ## Trace-level preservation -/

/-- The session a heartbeat event would touch, given the current attachment. -/
def heartbeatTarget (c : Conn) : WireEvent → Option Nat
  | WireEvent.heartbeat sid => sid <|> c.sock.sessionId
  | _ => none

theorem step_preserves_closed (oracle : Oracle) (c : Conn) (e : WireEvent) (S : Nat)
    (hwf : c.store.WF) (hS : statusOf c.store S = some chat_session_status.CLOSED)
    (hmiss : heartbeatTarget c e ≠ some S) :
    ((step oracle c e).1).store.WF ∧
      statusOf ((step oracle c e).1).store S = some chat_session_status.CLOSED := by
  cases e with
  | attach av qv as qs =>
    exact ⟨WF_handleConnection c.store av qv as qs hwf,
      closed_handleConnection c.store av qv as qs S hwf hS⟩
  | message sid content =>
    exact ⟨WF_handleMessage oracle c.store c.sock sid content hwf,
      closed_handleMessage oracle c.store c.sock sid content S hS⟩
  | heartbeat sid =>
    exact ⟨WF_handleHeartbeat c.store c.sock sid hwf,
      closed_handleHeartbeat_miss c.store c.sock sid S hmiss hS⟩
  | endSession sid =>
    exact ⟨WF_handleEndSession c.store c.sock sid hwf,
      closed_handleEndSession c.store c.sock sid S hS⟩
  | end_chat sid =>
    exact ⟨WF_handleEndSession c.store c.sock sid hwf,
      closed_handleEndSession c.store c.sock sid S hS⟩

/-- The trace never lets a heartbeat resolve to session `S`. -/
def avoidsHeartbeat (oracle : Oracle) (S : Nat) : Conn → List WireEvent → Prop
  | _, [] => True
  | c, e :: es => heartbeatTarget c e ≠ some S ∧
      avoidsHeartbeat oracle S (step oracle c e).1 es

theorem run_preserves_closed (oracle : Oracle) (S : Nat) :
    ∀ (es : List WireEvent) (c : Conn), c.store.WF →
      statusOf c.store S = some chat_session_status.CLOSED →
      avoidsHeartbeat oracle S c es →
      (run oracle c es).store.WF ∧
        statusOf (run oracle c es).store S = some chat_session_status.CLOSED := by
  intro es
  induction es with
  | nil => intro c hwf hS _; exact ⟨hwf, hS⟩
  | cons e es ih =>
    intro c hwf hS hav
    have hav' : heartbeatTarget c e ≠ some S ∧
        avoidsHeartbeat oracle S (step oracle c e).1 es := hav
    obtain ⟨hwf', hS'⟩ := step_preserves_closed oracle c e S hwf hS hav'.1
    exact ih _ hwf' hS' hav'.2

/-- After an attach whose requested id is `S`, the bound session id is the
resolver's result for that request. -/
theorem handleConnection_binds_resolved (st : Store) (av qv as qs : Option Nat) :
    ∃ v st₁, (((av <|> qv) = some v ∧ st₁ = st) ∨
        ((av <|> qv) = none ∧ v = st.nextVid ∧
          st₁ = { st with nextVid := st.nextVid + 1 })) ∧
      (handleConnection st av qv as qs).2.1.sessionId =
        some (ensureSession st₁ v (as <|> qs)).2.id := by
  unfold handleConnection
  cases hv : av <|> qv with
  | some v =>
    refine ⟨v, st, Or.inl ⟨rfl, rfl⟩, ?_⟩
    dsimp only
    cases hu : chatSessionUpdate (ensureSession st v (as <|> qs)).1
        (ensureSession st v (as <|> qs)).2.id chat_session_status.ACTIVE with
    | none => rfl
    | some st₃ => rfl
  | none =>
    refine ⟨st.nextVid, { st with nextVid := st.nextVid + 1 }, Or.inr ⟨rfl, rfl, rfl⟩, ?_⟩
    dsimp only
    cases hu : chatSessionUpdate
        (ensureSession { st with nextVid := st.nextVid + 1 } st.nextVid (as <|> qs)).1
        (ensureSession { st with nextVid := st.nextVid + 1 } st.nextVid (as <|> qs)).2.id
        chat_session_status.ACTIVE with
    | none => rfl
    | some st₃ => rfl

/-! ## Claim C1 -/

/-- A CLOSED session row (id 0, visitor 0) for the C1 scenario. -/
def c1Session : ChatSession :=
  { id := 0, visitor_id := 0, status := chat_session_status.CLOSED,
    created_at := 0, last_active_at := 0 }

/-- A store holding exactly one CLOSED session (id 0, visitor 0). -/
def c1Store : Store :=
  { sessions := [c1Session], messages := [], nextSid := 1, nextMid := 0,
    nextVid := 1, now := 1 }

/-- An oracle whose webhook always fails. -/
def failOracle : Oracle := fun _ _ _ => none

/-- C1 counterexample: a heartbeat carrying the id of a CLOSED session sets
that session's durable status back to ACTIVE — the heartbeat handler touches
the session with `status: ACTIVE` and no CLOSED check, so the claimed
monotonicity fails for the heartbeat operation. -/
theorem C1_counterexample :
    statusOf c1Store 0 = some chat_session_status.CLOSED ∧
    statusOf (handleHeartbeat c1Store SocketData.init (some 0)).1 0 =
      some chat_session_status.ACTIVE := by
  constructor <;> decide

/-- C1 (amended): for a well-formed store, no inbound-message, end-session
or attach operation run while a session's durable status is CLOSED results in
that session having status ACTIVE — its status stays CLOSED.  (A heartbeat
carrying the closed session's id, excluded here, does reactivate it, as the
counterexample shows.) -/
theorem C1_closed_never_reactivated (oracle : Oracle) (st : Store) (sock : SocketData)
    (S : Nat) (hwf : st.WF) (hS : statusOf st S = some chat_session_status.CLOSED) :
    (∀ psid content,
      statusOf (handleMessage oracle st sock psid content).1 S =
        some chat_session_status.CLOSED) ∧
    (∀ psid, statusOf (handleEndSession st sock psid).1 S =
        some chat_session_status.CLOSED) ∧
    (∀ av qv as qs, statusOf (handleConnection st av qv as qs).1 S =
        some chat_session_status.CLOSED) :=
  ⟨fun psid content => closed_handleMessage oracle st sock psid content S hS,
   fun psid => closed_handleEndSession st sock psid S hS,
   fun av qv as qs => closed_handleConnection st av qv as qs S hwf hS⟩

/-- Witness for C1: concrete closed store, a message event and an attach both
leave the closed session CLOSED. -/
theorem C1_closed_never_reactivated_witness :
    statusOf (handleMessage failOracle c1Store SocketData.init (some 0) (some "hi")).1 0 =
      some chat_session_status.CLOSED ∧
    statusOf (handleConnection c1Store none none (some 0) none).1 0 =
      some chat_session_status.CLOSED :=
  ⟨(C1_closed_never_reactivated failOracle c1Store SocketData.init 0
      ⟨by decide, by decide⟩ (by decide)).1 (some 0) (some "hi"),
   (C1_closed_never_reactivated failOracle c1Store SocketData.init 0
      ⟨by decide, by decide⟩ (by decide)).2.2 none none (some 0) none⟩

/-! ## Claim C2 -/

/-- C2: session resolution follows the four-step first-match-wins algorithm.
(1) A requested session that exists and is not CLOSED is returned unchanged
with the store untouched; (2) a requested id that is missing or CLOSED is
ignored, resolution proceeding exactly as with no requested id; (3) otherwise
the most-recently-created non-CLOSED session owned by the visitor is returned
(store untouched); (4) otherwise a new ACTIVE session owned by the visitor is
created and returned — the only step that writes, appending exactly that
session. -/
theorem C2_resolver_first_match_wins (st : Store) (v : Nat) :
    (∀ rid s, chatSessionFindUnique st rid = some s →
      s.status ≠ chat_session_status.CLOSED →
      ensureSession st v (some rid) = (st, s)) ∧
    (∀ rid, (∀ s, chatSessionFindUnique st rid = some s →
        s.status = chat_session_status.CLOSED) →
      ensureSession st v (some rid) = ensureSession st v none) ∧
    (∀ s, chatSessionFindFirstActive st v = some s →
      ensureSession st v none = (st, s) ∧ s ∈ st.sessions ∧ s.visitor_id = v ∧
        s.status ≠ chat_session_status.CLOSED ∧
        ∀ t ∈ st.sessions, t.visitor_id = v →
          t.status ≠ chat_session_status.CLOSED → t.created_at ≤ s.created_at) ∧
    ((∀ t ∈ st.sessions, t.visitor_id = v → t.status = chat_session_status.CLOSED) →
      ensureSession st v none = chatSessionCreate st v ∧
      (chatSessionCreate st v).2.status = chat_session_status.ACTIVE ∧
      (chatSessionCreate st v).2.visitor_id = v ∧
      (chatSessionCreate st v).1.sessions = st.sessions ++ [(chatSessionCreate st v).2]) := by
  refine ⟨?_, ?_, ?_, ?_⟩
  · intro rid s h hs
    unfold ensureSession
    dsimp only
    rw [h]
    dsimp only
    rw [if_pos hs]
  · intro rid hall
    unfold ensureSession
    dsimp only
    cases hfu : chatSessionFindUnique st rid with
    | none => rfl
    | some s =>
      dsimp only
      rw [if_neg (fun hne => hne (hall s hfu))]
  · intro s hff
    obtain ⟨hm, hv, hst, hmax⟩ := chatSessionFindFirstActive_some st v s hff
    refine ⟨?_, hm, hv, hst, hmax⟩
    unfold ensureSession
    dsimp only
    rw [hff]
  · intro hall
    refine ⟨?_, rfl, rfl, rfl⟩
    unfold ensureSession
    dsimp only
    rw [chatSessionFindFirstActive_none st v hall]

/-- An ACTIVE session row (id 0, visitor 7) for the C2 scenario. -/
def c2Session : ChatSession :=
  { id := 0, visitor_id := 7, status := chat_session_status.ACTIVE,
    created_at := 0, last_active_at := 0 }

/-- A store holding exactly one ACTIVE session owned by visitor 7. -/
def c2Store : Store :=
  { sessions := [c2Session], messages := [], nextSid := 1, nextMid := 0,
    nextVid := 8, now := 1 }

/-- Witness for C2: requesting the existing ACTIVE session returns it
unchanged, and with every session of visitor 9 closed (vacuously) resolution
for visitor 9 creates a new session. -/
theorem C2_resolver_first_match_wins_witness :
    ensureSession c2Store 7 (some 0) = (c2Store, c2Session) ∧
    ensureSession c2Store 9 none = chatSessionCreate c2Store 9 :=
  ⟨(C2_resolver_first_match_wins c2Store 7).1 0 c2Session (by decide) (by decide),
   ((C2_resolver_first_match_wins c2Store 9).2.2.2 (by decide)).1⟩

/-! ## Claim C3 -/

/-- C3: for a resolvable session id and non-empty trimmed content, a missing
session yields the SessionExpired error followed by a sessionClosed notice
(both to the caller only) with store and attachment unchanged; an existing
CLOSED session yields the sessionClosed notice only (no error) with store and
attachment unchanged.  In both cases nothing is persisted. -/
theorem C3_stale_session_reports (oracle : Oracle) (st : Store) (sock : SocketData)
    (psid : Option Nat) (content : Option String) (sid : Nat) (c : String)
    (hsid : (psid <|> sock.sessionId) = some sid)
    (hc : content = some c) (hne : trimString c ≠ "") :
    (chatSessionFindUnique st sid = none →
      handleMessage oracle st sock psid content = (st, sock,
        [OutEvent.toSender (Emitted.error "Session expired. Please refresh the page."),
         OutEvent.toSender (Emitted.sessionClosed sid
           "Session not found. Starting new session...")])) ∧
    (∀ s, chatSessionFindUnique st sid = some s →
      s.status = chat_session_status.CLOSED →
      handleMessage oracle st sock psid content = (st, sock,
        [OutEvent.toSender (Emitted.sessionClosed sid
          "Session was closed. Please start a new chat.")])) := by
  subst hc
  constructor
  · intro hfu
    unfold handleMessage
    rw [hsid]
    dsimp only
    rw [if_neg (by simpa using hne), hfu]
  · intro s hfu hcl
    unfold handleMessage
    rw [hsid]
    dsimp only
    rw [if_neg (by simpa using hne), hfu]
    dsimp only
    rw [if_pos hcl]

/-- A CLOSED session row (id 3, visitor 2) for the C3 scenario. -/
def c3Session : ChatSession :=
  { id := 3, visitor_id := 2, status := chat_session_status.CLOSED,
    created_at := 0, last_active_at := 0 }

/-- A store holding one CLOSED session with id 3. -/
def c3Store : Store :=
  { sessions := [c3Session], messages := [], nextSid := 4, nextMid := 0,
    nextVid := 3, now := 1 }

/-- Witness for C3: messaging the missing session 9 produces the error plus
notice; messaging the CLOSED session 3 produces the notice only. -/
theorem C3_stale_session_reports_witness :
    handleMessage failOracle c3Store SocketData.init (some 9) (some "x") =
      (c3Store, SocketData.init,
        [OutEvent.toSender (Emitted.error "Session expired. Please refresh the page."),
         OutEvent.toSender (Emitted.sessionClosed 9
           "Session not found. Starting new session...")]) ∧
    handleMessage failOracle c3Store SocketData.init (some 3) (some "x") =
      (c3Store, SocketData.init,
        [OutEvent.toSender (Emitted.sessionClosed 3
          "Session was closed. Please start a new chat.")]) :=
  ⟨(C3_stale_session_reports failOracle c3Store SocketData.init (some 9) (some "x") 9 "x"
      (by decide) rfl (by decide)).1 (by decide),
   (C3_stale_session_reports failOracle c3Store SocketData.init (some 3) (some "x") 3 "x"
      (by decide) rfl (by decide)).2 c3Session (by decide) (by decide)⟩

/-! ## Claim C4 -/

/-- C4: an inbound message with a resolvable session id whose content is
absent or trims to the empty string is a complete no-op: store, attachment
and outbound event list (empty) are all unchanged. -/
theorem C4_empty_content_noop (oracle : Oracle) (st : Store) (sock : SocketData)
    (psid : Option Nat) (content : Option String) (sid : Nat)
    (hsid : (psid <|> sock.sessionId) = some sid)
    (hempty : trimString (content.getD "") = "") :
    handleMessage oracle st sock psid content = (st, sock, []) := by
  unfold handleMessage
  rw [hsid]
  dsimp only
  rw [if_pos hempty]

/-- Witness for C4: whitespace-only content on a bound attachment is dropped
silently. -/
theorem C4_empty_content_noop_witness :
    handleMessage failOracle c3Store
      { sessionId := some 3, visitorId := some 2, rooms := [3], connected := true }
      none (some "   ") =
    (c3Store,
      { sessionId := some 3, visitorId := some 2, rooms := [3], connected := true },
      []) :=
  C4_empty_content_noop failOracle c3Store
    { sessionId := some 3, visitorId := some 2, rooms := [3], connected := true }
    none (some "   ") 3 (by decide) (by decide)

/-! ## Claim C5 -/

/-- C5: a message event with no session id in the payload and no bound
session id on the attachment emits exactly one error event to the caller,
persists nothing, and leaves store and attachment unchanged. -/
theorem C5_unbound_session_single_error (oracle : Oracle) (st : Store)
    (sock : SocketData) (content : Option String)
    (hsock : sock.sessionId = none) :
    handleMessage oracle st sock none content =
      (st, sock, [OutEvent.toSender
        (Emitted.error "Session not established yet. Please wait.")]) := by
  unfold handleMessage
  rw [hsock]
  rfl

/-- Witness for C5: a fresh unbound attachment receives exactly one error. -/
theorem C5_unbound_session_single_error_witness :
    handleMessage failOracle c3Store SocketData.init none (some "hello") =
      (c3Store, SocketData.init, [OutEvent.toSender
        (Emitted.error "Session not established yet. Please wait.")]) :=
  C5_unbound_session_single_error failOracle c3Store SocketData.init (some "hello") rfl

/-! ## Claim C6 -/

theorem chatSessionUpdate_some_of_found {st : Store} {sid : Nat}
    (ns : chat_session_status) {s : ChatSession}
    (h : chatSessionFindUnique st sid = some s) :
    ∃ st', chatSessionUpdate st sid ns = some st' := by
  unfold chatSessionFindUnique at h
  unfold chatSessionUpdate
  have hany : st.sessions.any (fun t => t.id == sid) = true :=
    List.any_eq_true.mpr ⟨s, List.mem_of_find?_eq_some h,
      List.find?_some (p := fun t : ChatSession => t.id == sid) h⟩
  rw [if_pos hany]
  exact ⟨_, rfl⟩

/-- C6: when the USER message was persisted and the oracle call fails, no BOT
message is persisted (the resulting message log is exactly the old one plus
the USER message), the USER message is not rolled back and appears in any
subsequent history load whose limit accommodates the session's messages, and
exactly one error event is emitted, addressed to the sender only (the USER
fan-out is the only room event). -/
theorem C6_oracle_failure_no_rollback (oracle : Oracle) (st : Store) (sock : SocketData)
    (psid : Option Nat) (content : Option String) (sid : Nat) (c : String) (s : ChatSession)
    (hsid : (psid <|> sock.sessionId) = some sid)
    (hc : content = some c) (hne : trimString c ≠ "")
    (hfu : chatSessionFindUnique st sid = some s)
    (hcl : s.status ≠ chat_session_status.CLOSED)
    (horacle : ∀ h, oracle sid (trimString c) h = none) :
    ∃ st₂,
      chatSessionUpdate (chatMessageCreate st sid message_role.USER (trimString c)).1 sid
          chat_session_status.ACTIVE = some st₂ ∧
      handleMessage oracle st sock psid content = (st₂, sock,
        [OutEvent.toRoom sid (Emitted.message
           (mapMessage (chatMessageCreate st sid message_role.USER (trimString c)).2)),
         OutEvent.toSender (Emitted.error
           "Unable to send message right now. Please try again.")]) ∧
      st₂.messages = st.messages ++
        [(chatMessageCreate st sid message_role.USER (trimString c)).2] ∧
      ∀ limit, (st₂.messages.filter (fun m => m.session_id == sid)).length ≤ limit →
        mapMessage (chatMessageCreate st sid message_role.USER (trimString c)).2 ∈
          getHistory st₂ sid limit := by
  subst hc
  obtain ⟨st₂, hu⟩ := @chatSessionUpdate_some_of_found
    (chatMessageCreate st sid message_role.USER (trimString c)).1 sid
    chat_session_status.ACTIVE s hfu
  refine ⟨st₂, hu, ?_, ?_, ?_⟩
  · unfold handleMessage
    rw [hsid]
    dsimp only
    simp only [Option.getD_some]
    rw [if_neg hne, hfu]
    dsimp only
    rw [if_neg hcl]
    rw [hu]
    dsimp only
    rw [horacle]
  · obtain ⟨heq, -⟩ := chatSessionUpdate_eq _ _ _ _ hu
    subst heq
    rfl
  · intro limit hlim
    set userMsg := (chatMessageCreate st sid message_role.USER (trimString c)).2 with husr
    have hmem : userMsg ∈ st₂.messages := by
      obtain ⟨heq, -⟩ := chatSessionUpdate_eq _ _ _ _ hu
      subst heq
      show userMsg ∈ st.messages ++ [userMsg]
      exact List.mem_append.mpr (Or.inr (List.mem_singleton.mpr rfl))
    have hsidm : (userMsg.session_id == sid) = true := by
      rw [husr]
      show (sid == sid) = true
      simp
    have hfmem : userMsg ∈ st₂.messages.filter (fun m => m.session_id == sid) :=
      List.mem_filter.mpr ⟨hmem, hsidm⟩
    unfold getHistory chatMessageFindMany
    have hperm := List.perm_insertionSort msgLe
      (st₂.messages.filter (fun m => m.session_id == sid))
    have hlen : (List.insertionSort msgLe
        (st₂.messages.filter (fun m => m.session_id == sid))).length ≤ limit := by
      rw [List.length_insertionSort]
      exact hlim
    rw [List.take_of_length_le hlen]
    exact List.mem_map_of_mem mapMessage (hperm.mem_iff.mpr hfmem)

/-- An ACTIVE session row (id 1, visitor 4) for the C6 scenario. -/
def c6Session : ChatSession :=
  { id := 1, visitor_id := 4, status := chat_session_status.ACTIVE,
    created_at := 0, last_active_at := 0 }

/-- A store holding one ACTIVE session with id 1 and no messages. -/
def c6Store : Store :=
  { sessions := [c6Session], messages := [], nextSid := 2, nextMid := 0,
    nextVid := 5, now := 1 }

/-- Witness for C6: with a failing oracle, the handler persists exactly the
USER message, emits the room echo plus one sender error, and the USER message
shows up in a subsequent history load. -/
theorem C6_oracle_failure_no_rollback_witness :
    ∃ st₂,
      chatSessionUpdate (chatMessageCreate c6Store 1 message_role.USER
          (trimString "hi")).1 1 chat_session_status.ACTIVE = some st₂ ∧
      handleMessage failOracle c6Store
        { sessionId := some 1, visitorId := some 4, rooms := [1], connected := true }
        none (some "hi") = (st₂,
          { sessionId := some 1, visitorId := some 4, rooms := [1], connected := true },
          [OutEvent.toRoom 1 (Emitted.message
             (mapMessage (chatMessageCreate c6Store 1 message_role.USER (trimString "hi")).2)),
           OutEvent.toSender (Emitted.error
             "Unable to send message right now. Please try again.")]) ∧
      st₂.messages = c6Store.messages ++
        [(chatMessageCreate c6Store 1 message_role.USER (trimString "hi")).2] ∧
      ∀ limit, (st₂.messages.filter (fun m => m.session_id == 1)).length ≤ limit →
        mapMessage (chatMessageCreate c6Store 1 message_role.USER (trimString "hi")).2 ∈
          getHistory st₂ 1 limit :=
  C6_oracle_failure_no_rollback failOracle c6Store
    { sessionId := some 1, visitorId := some 4, rooms := [1], connected := true }
    none (some "hi") 1 "hi" c6Session (by decide) rfl (by decide) (by decide)
    (by decide) (fun h => rfl)

/-! ## Claim C7 -/

/-- C7: the history loader returns the session's messages in ascending
created-timestamp order, bounded to at most `limit` entries; a session with
no messages yields the empty sequence rather than an error; the replay bound
used at attach is 100 and the oracle-context bound is 50.  (`getHistory` is a
pure read by construction: it returns only the message list, never a store,
so it cannot mutate session or message state.) -/
theorem C7_history_loader_contract (st : Store) (sid limit : Nat) :
    List.Sorted (fun a b : ChatMessageDto => a.createdAt ≤ b.createdAt)
      (getHistory st sid limit) ∧
    (getHistory st sid limit).length ≤ limit ∧
    (st.messages.filter (fun m => m.session_id == sid) = [] →
      getHistory st sid limit = []) ∧
    replayHistoryLimit = 100 ∧ brainHistoryLimit = 50 := by
  refine ⟨?_, ?_, ?_, rfl, rfl⟩
  · have hs : List.Sorted msgLe (List.insertionSort msgLe
        (st.messages.filter (fun m => m.session_id == sid))) :=
      List.sorted_insertionSort msgLe _
    have ht : List.Sorted msgLe ((List.insertionSort msgLe
        (st.messages.filter (fun m => m.session_id == sid))).take limit) :=
      hs.sublist (List.take_sublist limit _)
    exact ht.map mapMessage (fun a b hab => hab)
  · unfold getHistory chatMessageFindMany
    rw [List.length_map]
    exact le_trans (List.length_take_le limit _) (le_refl limit)
  · intro hnil
    unfold getHistory chatMessageFindMany
    rw [hnil]
    simp [List.insertionSort]

/-- A store with no messages at all, for the C7 witness. -/
def c7Store : Store :=
  { sessions := [], messages := [], nextSid := 0, nextMid := 0,
    nextVid := 0, now := 0 }

/-- Witness for C7: the empty store's history for any session is empty. -/
theorem C7_history_loader_contract_witness :
    getHistory c7Store 0 5 = [] :=
  (C7_history_loader_contract c7Store 0 5).2.2.1 (by decide)

/-! ## Claim C8 -/

theorem chatSessionUpdate_none_of_missing {st : Store} {sid : Nat}
    (ns : chat_session_status) (h : chatSessionFindUnique st sid = none) :
    chatSessionUpdate st sid ns = none := by
  unfold chatSessionFindUnique at h
  have hany : st.sessions.any (fun s => s.id == sid) = false := by
    rw [List.any_eq_false]
    intro a ha
    have := List.find?_eq_none.mp h a ha
    simpa using this
  simp [chatSessionUpdate, hany]

theorem chatSessionFindUnique_update_self {st st' : Store} {sid : Nat}
    {ns : chat_session_status} (h : chatSessionUpdate st sid ns = some st') :
    ∃ e, chatSessionFindUnique st sid = some e ∧
      chatSessionFindUnique st' sid =
        some { e with status := ns, last_active_at := st.now } := by
  obtain ⟨heq, hany⟩ := chatSessionUpdate_eq st sid ns st' h
  subst heq
  unfold chatSessionFindUnique
  have hsome : (st.sessions.find? (fun s => s.id == sid)).isSome := by
    rw [List.find?_isSome]
    exact List.any_eq_true.mp hany
  cases hfind : st.sessions.find? (fun s => s.id == sid) with
  | none => rw [hfind] at hsome; cases hsome
  | some e =>
    refine ⟨e, rfl, ?_⟩
    show (List.map _ st.sessions).find? _ = _
    rw [find?_map_idpres _ _ (touch_id sid ns st.now) sid, hfind]
    have he : (e.id == sid) = true := by
      simpa using List.find?_some (p := fun t : ChatSession => t.id == sid) hfind
    simp [Option.map, he]

/-- C8: the two end-session events run one identical path (their `step`
results coincide definitionally).  With no resolvable session id the handler
is a no-op.  With a resolvable id of an existing session it closes the
session (status CLOSED, last-active set to the current clock), persists a
SYSTEM closure message, emits `sessionClosed` to the requesting attachment
only, and clears the attachment's binding while the transport stays as it
was (`connected` unchanged in the updated socket record).  When the closing
update fails (no such session) it emits a recoverable error and the binding
stays in place (the socket record is returned unchanged). -/
theorem C8_end_session_unified_path (oracle : Oracle) (st : Store) (sock : SocketData)
    (psid : Option Nat) :
    (step oracle { store := st, sock := sock } (WireEvent.endSession psid) =
      step oracle { store := st, sock := sock } (WireEvent.end_chat psid)) ∧
    ((psid <|> sock.sessionId) = none → handleEndSession st sock psid = (st, sock, [])) ∧
    (∀ sid, (psid <|> sock.sessionId) = some sid →
      chatSessionFindUnique st sid = none →
      handleEndSession st sock psid = (st, sock,
        [OutEvent.toSender (Emitted.error "Failed to end session. Please try again.")])) ∧
    (∀ sid, (psid <|> sock.sessionId) = some sid →
      ∀ s, chatSessionFindUnique st sid = some s →
      ∃ st₁,
        chatSessionUpdate st sid chat_session_status.CLOSED = some st₁ ∧
        handleEndSession st sock psid =
          ((chatMessageCreate st₁ sid message_role.SYSTEM
              "Chat session ended by user.").1,
           { sock with sessionId := none, rooms := sock.rooms.erase sid },
           [OutEvent.toSender (Emitted.sessionClosed sid
             "Session ended successfully. You can start a new conversation.")]) ∧
        chatSessionFindUnique st₁ sid = some
          { s with status := chat_session_status.CLOSED, last_active_at := st.now } ∧
        (chatMessageCreate st₁ sid message_role.SYSTEM
            "Chat session ended by user.").1.messages =
          st.messages ++ [(chatMessageCreate st₁ sid message_role.SYSTEM
            "Chat session ended by user.").2]) := by
  refine ⟨rfl, ?_, ?_, ?_⟩
  · intro hr
    unfold handleEndSession
    rw [hr]
  · intro sid hr hmiss
    unfold handleEndSession
    rw [hr]
    dsimp only
    rw [chatSessionUpdate_none_of_missing chat_session_status.CLOSED hmiss]
  · intro sid hr s hfu
    obtain ⟨st₁, hu⟩ := chatSessionUpdate_some_of_found chat_session_status.CLOSED hfu
    refine ⟨st₁, hu, ?_, ?_, ?_⟩
    · unfold handleEndSession
      rw [hr]
      dsimp only
      rw [hu]
    · obtain ⟨e, hfe, hfe'⟩ := chatSessionFindUnique_update_self hu
      rw [hfu] at hfe
      rw [Option.some.inj hfe]
      exact hfe'
    · obtain ⟨heq, -⟩ := chatSessionUpdate_eq _ _ _ _ hu
      subst heq
      rfl

/-- An ACTIVE session row (id 2, visitor 6) for the C8 scenario. -/
def c8Session : ChatSession :=
  { id := 2, visitor_id := 6, status := chat_session_status.ACTIVE,
    created_at := 0, last_active_at := 0 }

/-- A store holding one ACTIVE session with id 2. -/
def c8Store : Store :=
  { sessions := [c8Session], messages := [], nextSid := 3, nextMid := 0,
    nextVid := 7, now := 1 }

/-- Witness for C8: ending session 2 from a bound attachment closes it,
persists the SYSTEM message and clears the binding; an unbound attachment is
a no-op. -/
theorem C8_end_session_unified_path_witness :
    (∃ st₁,
      chatSessionUpdate c8Store 2 chat_session_status.CLOSED = some st₁ ∧
      handleEndSession c8Store
          { sessionId := some 2, visitorId := some 6, rooms := [2], connected := true }
          none =
        ((chatMessageCreate st₁ 2 message_role.SYSTEM
            "Chat session ended by user.").1,
         { sessionId := none, visitorId := some 6, rooms := List.erase [2] 2,
           connected := true },
         [OutEvent.toSender (Emitted.sessionClosed 2
           "Session ended successfully. You can start a new conversation.")]) ∧
      chatSessionFindUnique st₁ 2 = some
        { c8Session with status := chat_session_status.CLOSED, last_active_at := c8Store.now } ∧
      (chatMessageCreate st₁ 2 message_role.SYSTEM
          "Chat session ended by user.").1.messages =
        c8Store.messages ++ [(chatMessageCreate st₁ 2 message_role.SYSTEM
          "Chat session ended by user.").2]) ∧
    handleEndSession c8Store SocketData.init none = (c8Store, SocketData.init, []) :=
  ⟨(C8_end_session_unified_path failOracle c8Store
      { sessionId := some 2, visitorId := some 6, rooms := [2], connected := true }
      none).2.2.2 2 rfl c8Session (by decide),
   (C8_end_session_unified_path failOracle c8Store SocketData.init none).2.1 rfl⟩

/-! ## Claim C9 -/

/-- An ACTIVE session row (id 0, visitor 0) for the C9 counterexample trace. -/
def c9Session : ChatSession :=
  { id := 0, visitor_id := 0, status := chat_session_status.ACTIVE,
    created_at := 0, last_active_at := 0 }

/-- A store holding one ACTIVE session with id 0. -/
def c9Store : Store :=
  { sessions := [c9Session], messages := [], nextSid := 1, nextMid := 0,
    nextVid := 1, now := 1 }

/-- A connection bound to session 0 of `c9Store`. -/
def c9Conn : Conn :=
  { store := c9Store,
    sock := { sessionId := some 0, visitorId := some 0, rooms := [0], connected := true } }

/-- C9 counterexample: end-session closes session 0, but an intervening
heartbeat carrying id 0 reactivates it, after which an attach requesting
session 0 resolves to session 0 again — the closed session id is reused. -/
theorem C9_counterexample :
    statusOf (run failOracle c9Conn [WireEvent.endSession (some 0)]).store 0 =
      some chat_session_status.CLOSED ∧
    ((step failOracle
        (run failOracle c9Conn [WireEvent.endSession (some 0), WireEvent.heartbeat (some 0)])
        (WireEvent.attach none none (some 0) none)).1).sock.sessionId = some 0 := by
  constructor <;> decide

/-- C9 (amended): after session S is CLOSED, for every sequence of
intervening core events in which no heartbeat resolves to S, a subsequent
attach requesting S binds a session id different from S (a closed session is
never reused by resolution).  The heartbeat exclusion is forced by the
counterexample: a heartbeat addressed to S reactivates it. -/
theorem C9_closed_session_never_reused (oracle : Oracle) (c : Conn) (S : Nat)
    (es : List WireEvent) (av qv qs : Option Nat) (t : Nat)
    (hwf : c.store.WF)
    (hS : statusOf c.store S = some chat_session_status.CLOSED)
    (hav : avoidsHeartbeat oracle S c es)
    (hbind : ((step oracle (run oracle c es)
        (WireEvent.attach av qv (some S) qs)).1).sock.sessionId = some t) :
    t ≠ S := by
  obtain ⟨hwf', hS'⟩ := run_preserves_closed oracle S es c hwf hS hav
  obtain ⟨v, st₁, hcase, hbind'⟩ := handleConnection_binds_resolved
    (run oracle c es).store av qv (some S) qs
  have hstep : ((step oracle (run oracle c es)
      (WireEvent.attach av qv (some S) qs)).1).sock.sessionId =
      (handleConnection (run oracle c es).store av qv (some S) qs).2.1.sessionId := rfl
  rw [hstep, hbind'] at hbind
  have ht : t = (ensureSession st₁ v ((some S) <|> qs)).2.id :=
    (Option.some.inj hbind).symm
  have hreq : ((some S) <|> qs : Option Nat) = some S := rfl
  rw [hreq] at ht
  rcases hcase with ⟨-, rfl⟩ | ⟨-, rfl, rfl⟩
  · rw [ht]
    exact ensureSession_ne_closed _ v (some S) S hwf' hS'
  · rw [ht]
    exact ensureSession_ne_closed _ _ (some S) S hwf' hS'

/-- A CLOSED session row (id 0, visitor 0) for the C9 witness. -/
def c9bSession : ChatSession :=
  { id := 0, visitor_id := 0, status := chat_session_status.CLOSED,
    created_at := 0, last_active_at := 0 }

/-- A store holding one CLOSED session with id 0. -/
def c9bStore : Store :=
  { sessions := [c9bSession], messages := [], nextSid := 1, nextMid := 0,
    nextVid := 1, now := 1 }

/-- An unbound connection over `c9bStore`. -/
def c9bConn : Conn := { store := c9bStore, sock := SocketData.init }

/-- Witness for C9: with session 0 closed and an intervening message event
(no heartbeat), an attach requesting session 0 binds the fresh id 1 ≠ 0. -/
theorem C9_closed_session_never_reused_witness : (1 : Nat) ≠ 0 :=
  C9_closed_session_never_reused failOracle c9bConn 0
    [WireEvent.message (some 0) (some "x")] none none none 1
    ⟨by decide, by decide⟩ (by decide)
    ⟨by decide, trivial⟩ (by decide)

/-! ## Claim C10 -/

/-- An ACTIVE session row (id 5, visitor 7) for the C10 counterexample. -/
def c10Session : ChatSession :=
  { id := 5, visitor_id := 7, status := chat_session_status.ACTIVE,
    created_at := 0, last_active_at := 0 }

/-- A store holding one ACTIVE session with id 5 owned by visitor 7. -/
def c10Store : Store :=
  { sessions := [c10Session], messages := [], nextSid := 6, nextMid := 0,
    nextVid := 8, now := 1 }

/-- C10 counterexample: an attach with no visitor identity anywhere in the
handshake, but requesting the existing ACTIVE session 5, binds to session 5 —
resolution stops at step 1 and creates nothing, so such a connection does not
always reach resolver step 4 or bind a newly created session. -/
theorem C10_counterexample :
    (handleConnection c10Store none none (some 5) none).2.1.sessionId = some 5 ∧
    (handleConnection c10Store none none (some 5) none).1.sessions.map
      (fun s => s.id) = [5] := by
  constructor <;> decide

theorem find?_append_right {α : Type} (p : α → Bool) (l₁ l₂ : List α)
    (h : ∀ a ∈ l₁, p a = false) : (l₁ ++ l₂).find? p = l₂.find? p := by
  induction l₁ with
  | nil => rfl
  | cons b l ih =>
    rw [List.cons_append]
    simp only [List.find?_cons, h b (List.mem_cons_self b l)]
    exact ih (fun a ha => h a (List.mem_cons_of_mem b ha))

theorem chatSessionCreate_find_self {st : Store} (v : Nat) (hwf : st.WF) :
    chatSessionFindUnique (chatSessionCreate st v).1 (chatSessionCreate st v).2.id =
      some (chatSessionCreate st v).2 := by
  unfold chatSessionFindUnique chatSessionCreate
  dsimp only
  rw [find?_append_right _ st.sessions _ (fun a ha => ?_)]
  · simp
  · have hlt := hwf.1 a ha
    simp [Nat.ne_of_lt hlt]

/-- C10 (amended): an attach whose handshake carries no visitor identity does
not fail for that reason: a fresh server-side visitor identity is generated
and used for resolution.  Provided that fresh identity owns no session and
the requested session id (if any) is missing or CLOSED, resolution reaches
step 4: the connection is bound to a newly created ACTIVE session (fresh id,
one more session in the store) and no error is emitted.  The freshness and
requested-id provisos are forced by the counterexample: a requested ACTIVE
session short-circuits resolution at step 1. -/
theorem C10_missing_visitor_generated (st : Store) (as qs : Option Nat)
    (hwf : st.WF)
    (hfresh : ∀ s ∈ st.sessions, s.visitor_id ≠ st.nextVid)
    (hreq : ∀ rid s, (as <|> qs) = some rid →
      chatSessionFindUnique st rid = some s →
      s.status = chat_session_status.CLOSED) :
    (handleConnection st none none as qs).2.1.visitorId = some st.nextVid ∧
    (handleConnection st none none as qs).2.1.sessionId = some st.nextSid ∧
    (handleConnection st none none as qs).2.1.connected = true ∧
    statusOf (handleConnection st none none as qs).1 st.nextSid =
      some chat_session_status.ACTIVE ∧
    (handleConnection st none none as qs).1.sessions.length =
      st.sessions.length + 1 ∧
    ∀ m, OutEvent.toSender (Emitted.error m) ∉
      (handleConnection st none none as qs).2.2 := by
  have hffa : chatSessionFindFirstActive { st with nextVid := st.nextVid + 1 }
      st.nextVid = none :=
    chatSessionFindFirstActive_none _ _ (fun t ht hv => absurd hv (hfresh t ht))
  have hens : ensureSession { st with nextVid := st.nextVid + 1 } st.nextVid
      (as <|> qs) = chatSessionCreate { st with nextVid := st.nextVid + 1 }
      st.nextVid := by
    cases hr : as <|> qs with
    | none =>
      unfold ensureSession
      dsimp only
      rw [hffa]
    | some rid =>
      unfold ensureSession
      dsimp only
      cases hfu : chatSessionFindUnique { st with nextVid := st.nextVid + 1 } rid with
      | none =>
        dsimp only
        rw [hffa]
      | some s =>
        dsimp only
        rw [if_neg (fun hne => hne (hreq rid s hr hfu))]
        dsimp only
        rw [hffa]
  have hwf' : Store.WF { st with nextVid := st.nextVid + 1 } := hwf
  have hfind := @chatSessionCreate_find_self { st with nextVid := st.nextVid + 1 }
    st.nextVid hwf'
  obtain ⟨st₃, hu⟩ := chatSessionUpdate_some_of_found chat_session_status.ACTIVE hfind
  have hmain : handleConnection st none none as qs =
      (st₃,
       { sessionId := some (chatSessionCreate { st with nextVid := st.nextVid + 1 }
           st.nextVid).2.id,
         visitorId := some st.nextVid,
         rooms := [(chatSessionCreate { st with nextVid := st.nextVid + 1 }
           st.nextVid).2.id],
         connected := true },
       if (getHistory (chatSessionCreate { st with nextVid := st.nextVid + 1 }
             st.nextVid).1
           (chatSessionCreate { st with nextVid := st.nextVid + 1 } st.nextVid).2.id
           replayHistoryLimit).isEmpty then
         [OutEvent.toSender (Emitted.session
           (chatSessionCreate { st with nextVid := st.nextVid + 1 } st.nextVid).2.id
           st.nextVid
           (chatSessionCreate { st with nextVid := st.nextVid + 1 } st.nextVid).2.status)]
       else
         [OutEvent.toSender (Emitted.session
           (chatSessionCreate { st with nextVid := st.nextVid + 1 } st.nextVid).2.id
           st.nextVid
           (chatSessionCreate { st with nextVid := st.nextVid + 1 } st.nextVid).2.status),
          OutEvent.toSender (Emitted.history
           (getHistory (chatSessionCreate { st with nextVid := st.nextVid + 1 }
               st.nextVid).1
             (chatSessionCreate { st with nextVid := st.nextVid + 1 } st.nextVid).2.id
             replayHistoryLimit))]) := by
    unfold handleConnection
    rw [show ((none : Option Nat) <|> none) = none from rfl]
    try dsimp only
    rw [hens]
    try dsimp only
    rw [hu]
  rw [hmain]
  refine ⟨rfl, rfl, rfl, ?_, ?_, ?_⟩
  · exact statusOf_update_self hu
  · obtain ⟨heq, -⟩ := chatSessionUpdate_eq _ _ _ _ hu
    subst heq
    show (List.map _ _).length = _
    rw [List.length_map]
    show (st.sessions ++ [_]).length = _
    rw [List.length_append]
    rfl
  · intro m
    by_cases hh : (getHistory (chatSessionCreate { st with nextVid := st.nextVid + 1 }
          st.nextVid).1
        (chatSessionCreate { st with nextVid := st.nextVid + 1 } st.nextVid).2.id
        replayHistoryLimit).isEmpty
    · rw [if_pos hh]
      simp
    · rw [if_neg hh]
      simp

/-- The empty store, for the C10 witness. -/
def c10bStore : Store :=
  { sessions := [], messages := [], nextSid := 0, nextMid := 0, nextVid := 0, now := 0 }

/-- Witness for C10: on the empty store an attach carrying no visitor
identity and no requested session id binds the generated visitor to a newly
created session. -/
theorem C10_missing_visitor_generated_witness :
    (handleConnection c10bStore none none none none).2.1.visitorId =
      some c10bStore.nextVid ∧
    (handleConnection c10bStore none none none none).2.1.sessionId =
      some c10bStore.nextSid :=
  ⟨(C10_missing_visitor_generated c10bStore none none ⟨by decide, by decide⟩
      (by decide) (fun rid s h _ => Option.noConfusion h)).1,
   (C10_missing_visitor_generated c10bStore none none ⟨by decide, by decide⟩
      (by decide) (fun rid s h _ => Option.noConfusion h)).2.1⟩
